import Mathlib

/-!
Verification of the city-weather service (src/main.py).

The service keeps a list of cities (SQLite via SQLAlchemy) and refreshes
their temperatures from the open-meteo HTTP API.  We shallowly embed the
data model and the route handlers:

* the `cities` table becomes a `List City`; timestamps are `Int` seconds,
  SQL floats become `Rat`;
* the network is an oracle `Rat → Rat → NetOutcome` giving, for each
  latitude/longitude pair, the outcome of the single HTTP request that
  `fetch_weather` issues for it;
* JSON response bodies are a small inductive `Json`; the fetched value is
  returned whatever its JSON type, and the write into the nullable REAL
  column goes through `storedTemperature` (null becomes SQL NULL, a number
  is stored as that number);
* SQL `ilike` (i.e. `lower(name) LIKE lower(pattern)`, `%`/`_` wildcards)
  is the executable matcher `likeMatch`;
* SQL `ORDER BY` is modelled as a sort by the emitted key
  (`desc(temperature IS NULL), desc(temperature)`), using a structural
  insertion sort so that concrete instances evaluate;
* SQLite autoincrement ids are modelled as max-id-plus-one on insert and
  sequential ids on bulk reset.
-/

/-- A minimal JSON value, enough for the weather-API response bodies. -/
inductive Json where
  | num (val : Rat)
  | str (s : String)
  | obj (fields : List (String × Json))
  | null

/-- Dictionary indexing `data[key]`: succeeds only on objects that have the key. -/
def Json.getField : Json → String → Option Json
  | .obj fields, key => List.lookup key fields
  | _, _ => none

/-- The ways one weather fetch can fail (spec §7: `FetchError`). -/
inductive FetchError where
  | network
  | timeout
  | badBody
  | missingField
deriving DecidableEq

/-- Outcome of the single HTTP GET issued by `fetch_weather`: the connection
fails, it times out, or a response arrives with a status code and a body
(`none` = body that is not parseable as JSON). -/
inductive NetOutcome where
  | connectionFailure
  | timeout
  | response (status : Nat) (body : Option Json)

/-- A row of the `cities` table (src/main.py, class `City`). -/
structure City where
  id : Nat
  name : String
  latitude : Rat
  longitude : Rat
  temperature : Option Rat
  updated_at : Option Int
deriving DecidableEq

/-- A row of the `default_cities` table (src/main.py, class `DefaultCity`). -/
structure DefaultCity where
  id : Nat
  name : String
  latitude : Rat
  longitude : Rat
deriving DecidableEq

/-- `data["current_weather"]["temperature"]` on a parsed body: the value at
that path, whatever its JSON type (number, null, string, object); `none`
exactly when a key is missing or a container along the path is not
indexable — the cases where the source raises. -/
def extractTemp (data : Json) : Option Json :=
  (data.getField "current_weather").bind (fun cw => cw.getField "temperature")

/-- src/main.py `fetch_weather(latitude, longitude)`: one GET to the
open-meteo URL built from the coordinates, then
`data["current_weather"]["temperature"]`.  Whatever JSON value sits at that
path is returned as-is; the function inspects only the body, never
`response.status`, and an error arises only when the call fails, times out,
the body is unparseable, or the path is absent or not indexable.  No
retry. -/
def fetch_weather (net : Rat → Rat → NetOutcome) (latitude longitude : Rat) :
    Except FetchError Json :=
  match net latitude longitude with
  | .connectionFailure => .error .network
  | .timeout => .error .timeout
  | .response _status body =>
    match body with
    | none => .error .badBody
    | some data =>
      match extractTemp data with
      | some v => .ok v
      | none => .error .missingField

/-- src/main.py `update_city_weather(city)`: fetch and pair the result with
the city it belongs to. -/
def update_city_weather (net : Rat → Rat → NetOutcome) (city : City) :
    Except FetchError (City × Json) :=
  match fetch_weather net city.latitude city.longitude with
  | .ok temp => .ok (city, temp)
  | .error e => .error e

/-- What the nullable REAL column holds once `city.temperature = temp` is
committed: Python `None` (JSON null) becomes SQL NULL, a JSON number is
stored as that number.  A string or container value lies outside this
`Option Rat` column model (SQLite affinity keeps non-numeric text as TEXT
and the driver rejects containers at bind time); the model maps those to
NULL, and no theorem below relies on that corner. -/
def storedTemperature : Json → Option Rat
  | .num q => some q
  | _ => none

/-- SQL `LIKE` with case folding (SQLAlchemy `ilike` emits
`lower(name) LIKE lower(pattern)`): `%` matches any substring, `_` any
single character, every other pattern character matches itself up to
ASCII case.  First argument is the pattern, second the candidate text. -/
def likeMatch : List Char → List Char → Bool
  | [], text => text.isEmpty
  | p :: ps, text =>
    if p = '%' then text.tails.any (fun suffix => likeMatch ps suffix)
    else
      match text with
      | [] => false
      | c :: cs =>
        if p = '_' then likeMatch ps cs
        else (p.toLower == c.toLower) && likeMatch ps cs

/-- Plain case-insensitive equality of strings (ASCII case folding). -/
def ciEq (a b : String) : Bool :=
  a.data.map Char.toLower == b.data.map Char.toLower

/-- Redirect issued when an add collides with an existing name. -/
def duplicateRedirect : String := "/?message=This city already exists&type=error"

/-- Redirect issued after a successful add. -/
def addedRedirect : String := "/?message=City added&type=success"

/-- Redirect issued by the remove route. -/
def deletedRedirect : String := "/?message=City deleted&type=success"

/-- Redirect issued by the reset route. -/
def resetRedirect : String := "/?message=City list reset&type=success"

/-- Redirect issued by the batch-update route. -/
def updatedRedirect : String := "/?message=Temperature reset&type=success"

/-- SQLite autoincrement: the id a fresh row receives. -/
def nextId (db : List City) : Nat :=
  db.foldr (fun c m => max c.id m) 0 + 1

/-- src/main.py `add_city`: reject when `City.name.ilike(name)` finds a row
(the submitted name is the pattern), otherwise insert the city with
temperature and timestamp unset. -/
def add_city (db : List City) (name : String) (latitude longitude : Rat) :
    List City × String :=
  match db.find? (fun c => likeMatch name.data c.name.data) with
  | some _ => (db, duplicateRedirect)
  | none =>
    (db ++ [{ id := nextId db, name := name, latitude := latitude,
              longitude := longitude, temperature := none, updated_at := none }],
     addedRedirect)

/-- src/main.py `remove_city`: delete the first row with the given id
(ids are unique in the table); a miss is a no-op.  Always redirects with
the success message. -/
def remove_city (db : List City) (city_id : Nat) : List City × String :=
  (db.eraseP (fun c => c.id == city_id), deletedRedirect)

/-- The insertion loop of `reset_cities`: one fresh `City` per default row,
temperature and timestamp unset, sequential autoincrement ids from `n`. -/
def resetFill : List DefaultCity → Nat → List City
  | [], _ => []
  | d :: ds, n =>
    { id := n, name := d.name, latitude := d.latitude, longitude := d.longitude,
      temperature := none, updated_at := none } :: resetFill ds (n + 1)

/-- src/main.py `reset_cities`: delete every city, then reinsert one city per
default row. -/
def reset_cities (_db : List City) (defaults : List DefaultCity) :
    List City × String :=
  (resetFill defaults 1, resetRedirect)

/-- The freshness window of the staleness filter: 15 minutes, in seconds. -/
def freshnessWindow : Int := 15 * 60

/-- The staleness filter inside `update_weather`: a city is skipped
(`continue`) exactly when it has a timestamp and
`now - city.updated_at < timedelta(minutes=15)`. -/
def skipCity (now : Int) (city : City) : Bool :=
  match city.updated_at with
  | none => false
  | some t => decide (now - t < freshnessWindow)

/-- src/main.py `update_weather`: capture `now`, build one fetch task per
non-skipped city, `asyncio.gather(..., return_exceptions=True)`, then for
every non-exception result `(city, temp)` assign `city.temperature = temp`
(the column holds `storedTemperature temp`) and `city.updated_at = now`
with the shared `now`; cities whose task raised are left untouched. -/
def update_weather (db : List City) (now : Int) (net : Rat → Rat → NetOutcome) :
    List City :=
  db.map (fun city =>
    if skipCity now city then city
    else
      match update_city_weather net city with
      | .ok (c, temp) =>
        { c with temperature := storedTemperature temp, updated_at := some now }
      | .error _ => city)

/-- The whole `/cities/update` route: the batch update plus the redirect it
returns (always the success message). -/
def update_weather_route (db : List City) (now : Int)
    (net : Rat → Rat → NetOutcome) : List City × String :=
  (update_weather db now net, updatedRedirect)

/-- The key of `read_root`'s query,
`ORDER BY (temperature IS NULL) DESC, temperature DESC`, as a Boolean
"comes no later than" relation: rows with NULL temperature first, then
temperature descending. -/
def cityOrder (a b : City) : Bool :=
  match a.temperature, b.temperature with
  | none, _ => true
  | some _, none => false
  | some x, some y => decide (y ≤ x)

/-- `cityOrder` as a decidable relation, for sorting. -/
def cityLe (a b : City) : Prop := cityOrder a b = true

instance : DecidableRel cityLe :=
  fun a b => instDecidableEqBool (cityOrder a b) true

/-- src/main.py `read_root`'s query: the stored cities ordered by the key of
`cityOrder` (a structural sort stands in for the SQL engine's sort). -/
def read_root (db : List City) : List City :=
  db.insertionSort cityLe

/-- Spec-side ordering ("ordered by temperature descending, nulls last"):
`a` may come no later than `b`. -/
def specNullsLastLe (a b : City) : Bool :=
  match a.temperature, b.temperature with
  | none, none => true
  | none, some _ => false
  | some _, none => true
  | some x, some y => decide (y ≤ x)

/-- Spec-side check that a whole list is ordered by temperature descending
with nulls last. -/
def pairwiseSpecNullsLast : List City → Bool
  | [] => true
  | c :: rest => rest.all (fun b => specNullsLastLe c b) && pairwiseSpecNullsLast rest

/-- The record invariant of spec §3: temperature and last-updated timestamp
are both present or both absent. -/
def cityInv (city : City) : Bool :=
  city.temperature.isSome == city.updated_at.isSome

/-- Success statuses of an HTTP response (2xx). -/
def isSuccessStatus (status : Nat) : Bool :=
  200 ≤ status && status < 300

/-! ### Concrete fixtures used in witnesses and counterexamples -/

/-- A city that has never been refreshed. -/
def exNullCity : City :=
  { id := 1, name := "A", latitude := 1, longitude := 1,
    temperature := none, updated_at := none }

/-- A city refreshed at time 0 with temperature 5. -/
def exWarmCity : City :=
  { id := 2, name := "B", latitude := 2, longitude := 2,
    temperature := some 5, updated_at := some 0 }

/-- A city refreshed recently (time 1500) with temperature 7. -/
def exFreshCity : City :=
  { id := 3, name := "C", latitude := 3, longitude := 3,
    temperature := some 7, updated_at := some 1500 }

/-- A three-city store: never refreshed, long-stale, fresh. -/
def exDb : List City := [exNullCity, exWarmCity, exFreshCity]

/-- A well-formed weather body reporting temperature 12. -/
def exGoodBody : Json :=
  Json.obj [("current_weather", Json.obj [("temperature", Json.num 12)])]

/-- A network where only latitude 1 answers (status 200, temperature 12) and
every other coordinate's connection fails. -/
def exEnv : Rat → Rat → NetOutcome :=
  fun latitude _ =>
    if latitude == 1 then NetOutcome.response 200 (some exGoodBody)
    else NetOutcome.connectionFailure

/-- A store containing exactly the city "paris". -/
def lowerParisCity : City :=
  { id := 1, name := "paris", latitude := 48, longitude := 2,
    temperature := none, updated_at := none }

/-- A store containing exactly the city "Paris". -/
def parisCity : City :=
  { id := 1, name := "Paris", latitude := 48, longitude := 2,
    temperature := none, updated_at := none }

/-- A weather body whose temperature field is present but null. -/
def nullTempBody : Json :=
  Json.obj [("current_weather", Json.obj [("temperature", Json.null)])]

/-- A network that always answers status 200 with a body carrying a null
temperature. -/
def nullTempEnv : Rat → Rat → NetOutcome :=
  fun _ _ => NetOutcome.response 200 (some nullTempBody)

/-- Three default rows A, B, C. -/
def exDefaults : List DefaultCity :=
  [{ id := 1, name := "A", latitude := 1, longitude := 1 },
   { id := 2, name := "B", latitude := 2, longitude := 2 },
   { id := 3, name := "C", latitude := 3, longitude := 3 }]

/-! ### Helper lemmas -/

/-- A LIKE pattern matches every string equal to it up to ASCII case:
point of contact between `ilike`-matching and case-insensitive equality. -/
theorem likeMatch_of_lower_eq :
    ∀ (p s : List Char), p.map Char.toLower = s.map Char.toLower →
      likeMatch p s = true := by
  intro p
  induction p with
  | nil =>
    intro s h
    cases s with
    | nil => rfl
    | cons c cs => simp at h
  | cons c ps ih =>
    intro s h
    cases s with
    | nil => simp at h
    | cons d ds =>
      simp only [List.map_cons, List.cons.injEq] at h
      obtain ⟨h1, h2⟩ := h
      by_cases hc : c = '%'
      · subst hc
        have hmem : ds ∈ (d :: ds).tails := by
          rw [List.mem_tails]
          exact List.suffix_cons d ds
        have hany : ((d :: ds).tails.any fun suffix => likeMatch ps suffix) = true :=
          List.any_eq_true.mpr ⟨ds, hmem, ih ds h2⟩
        simp [likeMatch, hany]
        exact Or.inr ⟨ds, List.suffix_refl ds, ih ds h2⟩
      · by_cases hu : c = '_'
        · subst hu
          simp only [likeMatch, if_neg hc, if_pos rfl]
          exact ih ds h2
        · simp only [likeMatch, if_neg hc, if_neg hu, Bool.and_eq_true, beq_iff_eq]
          exact ⟨h1, ih ds h2⟩

/-- The batch update touches no rows beyond the stored ones. -/
theorem update_weather_length (db : List City) (now : Int)
    (net : Rat → Rat → NetOutcome) :
    (update_weather db now net).length = db.length := by
  simp [update_weather]

/-- Pointwise description of the batch update. -/
theorem update_weather_get_eq (db : List City) (now : Int)
    (net : Rat → Rat → NetOutcome) (i : Nat) (h : i < db.length)
    (h2 : i < (update_weather db now net).length) :
    (update_weather db now net).get ⟨i, h2⟩ =
      (if skipCity now (db.get ⟨i, h⟩) then db.get ⟨i, h⟩
       else
         match update_city_weather net (db.get ⟨i, h⟩) with
         | .ok (c, temp) =>
           { c with temperature := storedTemperature temp, updated_at := some now }
         | .error _ => db.get ⟨i, h⟩) := by
  simp [update_weather, List.get_eq_getElem, List.getElem_map]

/-- A non-skipped city whose fetch succeeds with value `v` is rewritten with
the stored form of `v` and the shared `now`. -/
theorem update_weather_get_ok (db : List City) (now : Int)
    (net : Rat → Rat → NetOutcome) (i : Nat) (h : i < db.length)
    (h2 : i < (update_weather db now net).length) (v : Json)
    (hskip : skipCity now (db.get ⟨i, h⟩) = false)
    (hok : fetch_weather net (db.get ⟨i, h⟩).latitude (db.get ⟨i, h⟩).longitude =
      Except.ok v) :
    (update_weather db now net).get ⟨i, h2⟩ =
      { db.get ⟨i, h⟩ with temperature := storedTemperature v,
                           updated_at := some now } := by
  rw [update_weather_get_eq db now net i h h2]
  simp only [List.get_eq_getElem] at hskip hok
  simp [hskip, update_city_weather, hok]

/-- A skipped city is untouched. -/
theorem update_weather_get_skip (db : List City) (now : Int)
    (net : Rat → Rat → NetOutcome) (i : Nat) (h : i < db.length)
    (h2 : i < (update_weather db now net).length)
    (hskip : skipCity now (db.get ⟨i, h⟩) = true) :
    (update_weather db now net).get ⟨i, h2⟩ = db.get ⟨i, h⟩ := by
  rw [update_weather_get_eq db now net i h h2]
  simp only [List.get_eq_getElem] at hskip
  simp [hskip]

/-- A city whose fetch fails is untouched. -/
theorem update_weather_get_err (db : List City) (now : Int)
    (net : Rat → Rat → NetOutcome) (i : Nat) (h : i < db.length)
    (h2 : i < (update_weather db now net).length) (e : FetchError)
    (herr : fetch_weather net (db.get ⟨i, h⟩).latitude (db.get ⟨i, h⟩).longitude =
      Except.error e) :
    (update_weather db now net).get ⟨i, h2⟩ = db.get ⟨i, h⟩ := by
  rw [update_weather_get_eq db now net i h h2]
  simp only [List.get_eq_getElem] at herr
  by_cases hskip : skipCity now db[i] <;>
    simp [hskip, update_city_weather, herr]

/-- The reset loop copies exactly name, latitude and longitude of each
default row, in order. -/
theorem resetFill_proj :
    ∀ (ds : List DefaultCity) (n : Nat),
      (resetFill ds n).map (fun c => (c.name, c.latitude, c.longitude)) =
        ds.map (fun d => (d.name, d.latitude, d.longitude)) := by
  intro ds
  induction ds with
  | nil => intro n; rfl
  | cons d ds ih => intro n; simp [resetFill, ih]

/-- Every city produced by the reset loop has temperature and timestamp
unset. -/
theorem resetFill_unset :
    ∀ (ds : List DefaultCity) (n : Nat), ∀ c ∈ resetFill ds n,
      c.temperature = none ∧ c.updated_at = none := by
  intro ds
  induction ds with
  | nil => intro n c hc; simp [resetFill] at hc
  | cons d ds ih =>
    intro n c hc
    simp only [resetFill, List.mem_cons] at hc
    rcases hc with rfl | hc
    · exact ⟨rfl, rfl⟩
    · exact ih (n + 1) c hc

instance : IsTotal City cityLe := by
  constructor
  intro a b
  unfold cityLe cityOrder
  cases a.temperature with
  | none => left; rfl
  | some x =>
    cases b.temperature with
    | none => right; rfl
    | some y =>
      rcases le_total y x with h | h
      · left; simpa using h
      · right; simpa using h

instance : IsTrans City cityLe := by
  constructor
  intro a b c hab hbc
  unfold cityLe cityOrder at hab hbc ⊢
  cases ha : a.temperature with
  | none => rfl
  | some x =>
    rw [ha] at hab
    cases hb : b.temperature with
    | none => rw [hb] at hab; simp at hab
    | some y =>
      rw [hb] at hab
      rw [hb] at hbc
      cases hc : c.temperature with
      | none => rw [hc] at hbc; simp at hbc
      | some z =>
        rw [hc] at hbc
        simp only [decide_eq_true_eq] at hab hbc ⊢
        exact le_trans hbc hab

/-! ### Claims -/

/-- C2: the staleness filter skips nothing without a timestamp; with a
timestamp `t` a city is eligible (not skipped) exactly when
`now - t` is at least the 15-minute window, so it is eligible at exactly
15 minutes and ineligible strictly below. -/
theorem skipCity_eligibility (now : Int) (city : City) :
    skipCity now city = false ↔
      (city.updated_at = none ∨
        ∃ t, city.updated_at = some t ∧ freshnessWindow ≤ now - t) := by
  cases h : city.updated_at with
  | none => simp [skipCity, h]
  | some t => simp [skipCity, h, not_lt]

/-- C2 witness: a city last updated at time 0 is eligible again at exactly
`now = 900`, the 15-minute boundary. -/
theorem skipCity_eligibility_witness : skipCity 900 exWarmCity = false :=
  (skipCity_eligibility 900 exWarmCity).mpr (Or.inr ⟨0, rfl, by decide⟩)

/-- C1: the batch refresh keeps the store the same length; a non-skipped
city whose fetch returns the numeric value `q` ends with temperature `q`
and the batch-wide `now` as its timestamp; a non-skipped city whose fetch
returns null ends with the NULL it was assigned and the batch-wide `now`;
a skipped city, or a city whose fetch raised, is left exactly as it was. -/
theorem update_weather_batch (db : List City) (now : Int)
    (net : Rat → Rat → NetOutcome) (i : Nat) (h : i < db.length)
    (h2 : i < (update_weather db now net).length) :
    (update_weather db now net).length = db.length ∧
    (∀ q : Rat, skipCity now (db.get ⟨i, h⟩) = false →
      fetch_weather net (db.get ⟨i, h⟩).latitude (db.get ⟨i, h⟩).longitude =
        Except.ok (Json.num q) →
      (update_weather db now net).get ⟨i, h2⟩ =
        { db.get ⟨i, h⟩ with temperature := some q, updated_at := some now }) ∧
    (skipCity now (db.get ⟨i, h⟩) = false →
      fetch_weather net (db.get ⟨i, h⟩).latitude (db.get ⟨i, h⟩).longitude =
        Except.ok Json.null →
      (update_weather db now net).get ⟨i, h2⟩ =
        { db.get ⟨i, h⟩ with temperature := none, updated_at := some now }) ∧
    (skipCity now (db.get ⟨i, h⟩) = true →
      (update_weather db now net).get ⟨i, h2⟩ = db.get ⟨i, h⟩) ∧
    (∀ e : FetchError,
      fetch_weather net (db.get ⟨i, h⟩).latitude (db.get ⟨i, h⟩).longitude =
        Except.error e →
      (update_weather db now net).get ⟨i, h2⟩ = db.get ⟨i, h⟩) :=
  ⟨update_weather_length db now net,
   fun q hskip hok => update_weather_get_ok db now net i h h2 (Json.num q) hskip hok,
   fun hskip hok => update_weather_get_ok db now net i h h2 Json.null hskip hok,
   fun hskip => update_weather_get_skip db now net i h h2 hskip,
   fun e herr => update_weather_get_err db now net i h h2 e herr⟩

/-- C1 witness: at `now = 2000`, the never-refreshed city gets temperature
12 and timestamp 2000, the stale city whose fetch fails is unchanged, and
the fresh city is unchanged. -/
theorem update_weather_batch_witness :
    (update_weather exDb 2000 exEnv).get ⟨0, by decide⟩ =
      { exDb.get ⟨0, by decide⟩ with temperature := some 12, updated_at := some 2000 } ∧
    (update_weather exDb 2000 exEnv).get ⟨1, by decide⟩ = exDb.get ⟨1, by decide⟩ ∧
    (update_weather exDb 2000 exEnv).get ⟨2, by decide⟩ = exDb.get ⟨2, by decide⟩ :=
  ⟨(update_weather_batch exDb 2000 exEnv 0 (by decide) (by decide)).2.1 12
      (by decide) rfl,
   (update_weather_batch exDb 2000 exEnv 1 (by decide) (by decide)).2.2.2.2
      FetchError.network rfl,
   (update_weather_batch exDb 2000 exEnv 2 (by decide) (by decide)).2.2.2.1
      (by decide)⟩

/-- C3: the batch route always returns the success redirect — it never
surfaces a fetch failure — and a city whose own fetch succeeded is still
updated no matter what the other fetches did. -/
theorem update_weather_route_swallows (db : List City) (now : Int)
    (net : Rat → Rat → NetOutcome) :
    (update_weather_route db now net).2 = updatedRedirect ∧
    ∀ (j : Nat) (hj : j < db.length)
      (hj2 : j < (update_weather_route db now net).1.length) (t : Rat),
      skipCity now (db.get ⟨j, hj⟩) = false →
      fetch_weather net (db.get ⟨j, hj⟩).latitude (db.get ⟨j, hj⟩).longitude =
        Except.ok (Json.num t) →
      (update_weather_route db now net).1.get ⟨j, hj2⟩ =
        { db.get ⟨j, hj⟩ with temperature := some t, updated_at := some now } :=
  ⟨rfl, fun j hj hj2 t hskip hok =>
    update_weather_get_ok db now net j hj hj2 (Json.num t) hskip hok⟩

/-- C3 witness: with a network that fails for two of the three cities, the
route still answers the success redirect and still applies the one
successful fetch. -/
theorem update_weather_route_swallows_witness :
    (update_weather_route exDb 2000 exEnv).2 = updatedRedirect ∧
    (update_weather_route exDb 2000 exEnv).1.get ⟨0, by decide⟩ =
      { exDb.get ⟨0, by decide⟩ with temperature := some 12, updated_at := some 2000 } :=
  ⟨(update_weather_route_swallows exDb 2000 exEnv).1,
   (update_weather_route_swallows exDb 2000 exEnv).2 0 (by decide) (by decide) 12
      (by decide) rfl⟩

/-- C4 counterexample: with the store [warm, null-temperature], the route
reorders the null-temperature city to the front, so the result is not
"temperature descending with nulls last" as claimed. -/
theorem read_root_nulls_first_counterexample :
    read_root [exWarmCity, exNullCity] = [exNullCity, exWarmCity] ∧
    pairwiseSpecNullsLast (read_root [exWarmCity, exNullCity]) = false :=
  ⟨by decide, by decide⟩

/-- C4 corrected: the list route returns a permutation of the stored cities
sorted by the emitted key — cities with absent temperature first, then the
rest by temperature descending. -/
theorem read_root_order (db : List City) :
    (read_root db).Perm db ∧ List.Sorted cityLe (read_root db) :=
  ⟨List.perm_insertionSort cityLe db, List.sorted_insertionSort cityLe db⟩

/-- C5: if some stored city's name equals the submitted name up to ASCII
case, the add is rejected with the duplicate redirect and the store is
returned unchanged. -/
theorem add_city_rejects_duplicate (db : List City) (name : String)
    (latitude longitude : Rat) (c : City) (hc : c ∈ db)
    (hEq : ciEq name c.name = true) :
    add_city db name latitude longitude = (db, duplicateRedirect) := by
  have hmatch : likeMatch name.data c.name.data = true := by
    apply likeMatch_of_lower_eq
    simpa [ciEq] using hEq
  have hsome : (db.find? (fun x => likeMatch name.data x.name.data)).isSome = true :=
    List.find?_isSome.mpr ⟨c, hc, hmatch⟩
  obtain ⟨x, hx⟩ := Option.isSome_iff_exists.mp hsome
  simp [add_city, hx]

/-- C5 witness: adding "Paris" when "paris" is stored is rejected and the
store keeps its single row. -/
theorem add_city_rejects_duplicate_witness :
    add_city [lowerParisCity] "Paris" 48 2 = ([lowerParisCity], duplicateRedirect) :=
  add_city_rejects_duplicate [lowerParisCity] "Paris" 48 2 lowerParisCity
    (by simp) (by decide)

/-- C6: the batch refresh breaks the both-present-or-both-absent invariant.
With a single never-refreshed city and a provider answering status 200 with
body current_weather.temperature = null, the fetch returns the null value
as a success, and the merge loop writes both fields anyway: the row ends
with no temperature but with the batch timestamp, so `cityInv` fails. -/
theorem update_weather_null_temp_violates_inv :
    (update_weather [exNullCity] 2000 nullTempEnv).get ⟨0, by decide⟩ =
      { exNullCity with temperature := none, updated_at := some 2000 } ∧
    cityInv ((update_weather [exNullCity] 2000 nullTempEnv).get ⟨0, by decide⟩) =
      false :=
  ⟨by decide, by decide⟩

/-- C7: after a bulk reset the store holds exactly one city per default row
(same name, latitude, longitude, in order), each with temperature and
timestamp unset, whatever the prior store was, and the route redirects with
the success message. -/
theorem reset_cities_exact (db : List City) (defaults : List DefaultCity) :
    ((reset_cities db defaults).1.map (fun c => (c.name, c.latitude, c.longitude)) =
      defaults.map (fun d => (d.name, d.latitude, d.longitude))) ∧
    (∀ c ∈ (reset_cities db defaults).1,
      c.temperature = none ∧ c.updated_at = none) ∧
    (reset_cities db defaults).2 = resetRedirect :=
  ⟨resetFill_proj defaults 1, fun c hc => resetFill_unset defaults 1 c hc, rfl⟩

/-- C7 witness: resetting a one-city store to defaults {A, B, C} yields
exactly A, B, C, and the produced A-row has temperature and timestamp
unset. -/
theorem reset_cities_exact_witness :
    ((reset_cities [exFreshCity] exDefaults).1.map
        (fun c => (c.name, c.latitude, c.longitude)) =
      exDefaults.map (fun d => (d.name, d.latitude, d.longitude))) ∧
    (exNullCity.temperature = none ∧ exNullCity.updated_at = none) :=
  ⟨(reset_cities_exact [exFreshCity] exDefaults).1,
   (reset_cities_exact [exFreshCity] exDefaults).2.1 exNullCity (by decide)⟩

/-- C8 counterexample: a response with status 500 whose body still carries
current_weather.temperature makes fetch_weather return the value: a
non-success status alone never produces a FetchError. -/
theorem fetch_weather_ignores_status :
    isSuccessStatus 500 = false ∧
    fetch_weather (fun _ _ => NetOutcome.response 500 (some exGoodBody)) 0 0 =
      Except.ok (Json.num 12) :=
  ⟨rfl, rfl⟩

/-- C8 corrected: fetch_weather fails with the matching FetchError on
connection failure, timeout, an unparseable body, or a body where the
current_weather.temperature path is missing or not indexable, and otherwise
returns the value found at that path, whatever its JSON type; the HTTP
status is never inspected, and exactly one request is made with no
retry. -/
theorem fetch_weather_spec (net : Rat → Rat → NetOutcome)
    (latitude longitude : Rat) :
    (net latitude longitude = NetOutcome.connectionFailure →
      fetch_weather net latitude longitude = Except.error FetchError.network) ∧
    (net latitude longitude = NetOutcome.timeout →
      fetch_weather net latitude longitude = Except.error FetchError.timeout) ∧
    (∀ s, net latitude longitude = NetOutcome.response s none →
      fetch_weather net latitude longitude = Except.error FetchError.badBody) ∧
    (∀ s data v, net latitude longitude = NetOutcome.response s (some data) →
      extractTemp data = some v →
      fetch_weather net latitude longitude = Except.ok v) ∧
    (∀ s data, net latitude longitude = NetOutcome.response s (some data) →
      extractTemp data = none →
      fetch_weather net latitude longitude = Except.error FetchError.missingField) := by
  refine ⟨?_, ?_, ?_, ?_, ?_⟩
  · intro h; simp [fetch_weather, h]
  · intro h; simp [fetch_weather, h]
  · intro s h; simp [fetch_weather, h]
  · intro s data v h he; simp [fetch_weather, h, he]
  · intro s data h he; simp [fetch_weather, h, he]

/-- C8 witness: a failing connection yields the network FetchError. -/
theorem fetch_weather_spec_witness :
    fetch_weather (fun _ _ => NetOutcome.connectionFailure) 0 0 =
      Except.error FetchError.network :=
  (fetch_weather_spec (fun _ _ => NetOutcome.connectionFailure) 0 0).1 rfl

/-- C10: "P%s" is not case-insensitively equal to "Paris", yet adding it to
a store holding exactly "Paris" is rejected as a duplicate with the store
unchanged, because the duplicate check treats the submitted name as a LIKE
pattern. -/
theorem add_city_wildcard_overmatch :
    ciEq "P%s" "Paris" = false ∧
    add_city [parisCity] "P%s" 0 0 = ([parisCity], duplicateRedirect) :=
  ⟨by decide, by decide⟩
